import Mathlib

/-!
Verification development for the `lbm_drag_rpi` HAL.

The definitions below are a shallow embedding of the C sources:

* `src/smtc_hal_drag_rpi/smtc_hal_lp_timer.c` — low-power timer slots with a
  blocked/pending gate (`hal_lp_timer_*`, `pl_timer_handler`);
* `src/smtc_hal_drag_rpi/smtc_hal_gpio.c` — GPIO pin slots with the same gate
  (`hal_gpio_*`, `gpio_irq_callback`);
* `src/main.c` — command-line parsing of the configurable globals and the
  fork/waitpid supervisor loop.

Handler invocations are made observable by returning the list of dispatched
callbacks from each operation (a `Dispatch` records the non-NULL function
pointer and the context argument it was called with).
-/

/-- A single handler invocation: the (non-NULL) callback pointer that was
called, and the context pointer passed to it.  Pointers are modelled as
`Nat` identities, `Option` for nullable ones. -/
structure Dispatch where
  callback : Nat
  context : Option Nat
deriving DecidableEq

/-! ### Timer facility (`smtc_hal_lp_timer.c`) -/

/-- `hal_lp_timer_irq_t`: a callback pointer and a context pointer, both
nullable. -/
structure hal_lp_timer_irq_t where
  context : Option Nat
  callback : Option Nat
deriving DecidableEq

/-- The cleared handler `{.context = NULL, .callback = NULL}` assigned by
`hal_lp_timer_stop`. -/
def no_irq : hal_lp_timer_irq_t := ⟨none, none⟩

/-- One entry of the static `lptim[]` array (`struct hal_lp_timer_s`).
The C fields `signo` and `handle` are opaque OS identifiers with no effect on
the gate logic and are elided; `os_value_ms` models the kernel countdown
value armed through `timer_settime` on `handle` (`0` = disarmed, matching a
zero `it_value`). -/
structure lp_timer_t where
  tmr_irq : hal_lp_timer_irq_t
  blocked : Bool
  pending : Bool
  os_value_ms : Nat
deriving DecidableEq

/-- `static lp_timer_t lptim[...]`: static storage is zero-initialized, so a
slot starts with NULL handler, `blocked = false`, `pending = false` and no
armed countdown. -/
def timerInit : lp_timer_t := ⟨no_irq, false, false, 0⟩

/-- `hal_lp_timer_start`: stores the handler into `tmr_irq` and arms the
countdown for `milliseconds` via `timer_settime`. -/
def hal_lp_timer_start (milliseconds : Nat) (tmr_irq : hal_lp_timer_irq_t)
    (s : lp_timer_t) : lp_timer_t :=
  { s with tmr_irq := tmr_irq, os_value_ms := milliseconds }

/-- `hal_lp_timer_stop`: clears the handler (both pointers to NULL) and
disarms the countdown (zero `it_value`). -/
def hal_lp_timer_stop (s : lp_timer_t) : lp_timer_t :=
  { s with tmr_irq := no_irq, os_value_ms := 0 }

/-- `hal_lp_timer_irq_enable`: sets `blocked = false`; then, if the slot is
pending and the callback is non-NULL, invokes the callback and clears
`pending`.  Note the C code clears `pending` only inside that branch. -/
def hal_lp_timer_irq_enable (s : lp_timer_t) : lp_timer_t × List Dispatch :=
  let s1 := { s with blocked := false }
  if s.pending then
    match s.tmr_irq.callback with
    | some cb => ({ s1 with pending := false }, [⟨cb, s.tmr_irq.context⟩])
    | none => (s1, [])
  else (s1, [])

/-- `hal_lp_timer_irq_disable`: sets `blocked = true`. -/
def hal_lp_timer_irq_disable (s : lp_timer_t) : lp_timer_t :=
  { s with blocked := true }

/-- `pl_timer_handler`: the signal handler that delivers a timer expiry for
the slot named by `si_value`.  If the slot is blocked it records the event
in `pending` and returns; otherwise it invokes the callback if one is
attached. -/
def pl_timer_handler (s : lp_timer_t) : lp_timer_t × List Dispatch :=
  if s.blocked then ({ s with pending := true }, [])
  else
    match s.tmr_irq.callback with
    | some cb => (s, [⟨cb, s.tmr_irq.context⟩])
    | none => (s, [])

/-- Operations that can act on one timer slot. `expire` is the asynchronous
delivery of a timer expiry signal into `pl_timer_handler`. -/
inductive TimerOp where
  | start (milliseconds : Nat) (tmr_irq : hal_lp_timer_irq_t)
  | stop
  | irq_enable
  | irq_disable
  | expire
deriving DecidableEq

/-- One operation applied to a timer slot, with its dispatches. -/
def timerStep (s : lp_timer_t) : TimerOp → lp_timer_t × List Dispatch
  | .start milliseconds tmr_irq => (hal_lp_timer_start milliseconds tmr_irq s, [])
  | .stop => (hal_lp_timer_stop s, [])
  | .irq_enable => hal_lp_timer_irq_enable s
  | .irq_disable => (hal_lp_timer_irq_disable s, [])
  | .expire => pl_timer_handler s

/-- A sequence of operations on a timer slot, accumulating dispatches in
order. -/
def runTimer (s : lp_timer_t) : List TimerOp → lp_timer_t × List Dispatch
  | [] => (s, [])
  | op :: ops =>
    let r1 := timerStep s op
    let r2 := runTimer r1.1 ops
    (r2.1, r1.2 ++ r2.2)

theorem runTimer_cons (s : lp_timer_t) (op : TimerOp) (ops : List TimerOp) :
    runTimer s (op :: ops) =
      ((runTimer (timerStep s op).1 ops).1,
        (timerStep s op).2 ++ (runTimer (timerStep s op).1 ops).2) := rfl

theorem runTimer_append (s : lp_timer_t) (l1 l2 : List TimerOp) :
    runTimer s (l1 ++ l2) =
      ((runTimer (runTimer s l1).1 l2).1,
        (runTimer s l1).2 ++ (runTimer (runTimer s l1).1 l2).2) := by
  induction l1 generalizing s with
  | nil => simp [runTimer]
  | cons op ops ih =>
    simp only [List.cons_append, runTimer_cons, ih, List.append_assoc]

theorem timerStep_expire_blocked (s : lp_timer_t) (h : s.blocked = true) :
    timerStep s .expire = ({ s with pending := true }, []) := by
  simp [timerStep, pl_timer_handler, h]

theorem lp_timer_pending_update_self (s : lp_timer_t) (h : s.pending = true) :
    { s with pending := true } = s := by
  cases s
  simp_all

/-- While a slot stays blocked with `pending` already set, further expiry
deliveries change nothing and dispatch nothing. -/
theorem runTimer_expire_saturated (n : Nat) (s : lp_timer_t)
    (hb : s.blocked = true) (hp : s.pending = true) :
    runTimer s (List.replicate n .expire) = (s, []) := by
  induction n with
  | zero => rfl
  | succ n ih =>
    rw [List.replicate_succ, runTimer_cons, timerStep_expire_blocked s hb,
      lp_timer_pending_update_self s hp]
    simp [ih]

theorem timerStep_disable (s : lp_timer_t) :
    timerStep s .irq_disable = ({ s with blocked := true }, []) := rfl

theorem timerStep_enable_hit (s : lp_timer_t) (cb : Nat)
    (hp : s.pending = true) (hcb : s.tmr_irq.callback = some cb) :
    timerStep s .irq_enable =
      ({ s with blocked := false, pending := false }, [⟨cb, s.tmr_irq.context⟩]) := by
  simp [timerStep, hal_lp_timer_irq_enable, hp, hcb]

/-- C1: any number (at least one) of expiry notifications landing while a
timer slot is masked collapse into the single `pending` bit, and the
following unmask with a handler attached invokes that handler exactly once
(one dispatch in the whole trace) and clears `pending`. -/
theorem timer_coalescing_single_dispatch (s : lp_timer_t) (cb n : Nat)
    (hcb : s.tmr_irq.callback = some cb) (hn : 1 ≤ n) :
    runTimer s (.irq_disable :: (List.replicate n .expire ++ [.irq_enable])) =
      ({ s with blocked := false, pending := false }, [⟨cb, s.tmr_irq.context⟩]) := by
  obtain ⟨m, rfl⟩ : ∃ m, n = m + 1 := ⟨n - 1, by omega⟩
  have e2 : timerStep { s with blocked := true } .expire
      = ({ s with blocked := true, pending := true }, []) := by
    simp [timerStep, pl_timer_handler]
  have e3 : runTimer { s with blocked := true, pending := true }
        (List.replicate m .expire)
      = ({ s with blocked := true, pending := true }, []) :=
    runTimer_expire_saturated m _ rfl rfl
  have e4 : timerStep { s with blocked := true, pending := true } .irq_enable
      = ({ s with blocked := false, pending := false }, [⟨cb, s.tmr_irq.context⟩]) := by
    simp [timerStep, hal_lp_timer_irq_enable, hcb]
  simp [List.replicate_succ, runTimer_cons, timerStep_disable, e2,
    runTimer_append, e3, e4, runTimer]

/-- C1 witness: the mask / two expiries / unmask scenario on a concrete slot
dispatches its handler exactly once. -/
theorem timer_coalescing_single_dispatch_witness :
    runTimer ⟨⟨some 0, some 7⟩, false, false, 0⟩
        (.irq_disable :: (List.replicate 2 .expire ++ [.irq_enable])) =
      (⟨⟨some 0, some 7⟩, false, false, 0⟩, [⟨7, some 0⟩]) :=
  timer_coalescing_single_dispatch ⟨⟨some 0, some 7⟩, false, false, 0⟩ 7 2 rfl (by decide)

/-! ### GPIO facility (`smtc_hal_gpio.c`)

The header `smtc_hal_gpio.h` is not part of the sources; the enum
`hal_gpio_irq_mode_t` is reconstructed from the conversion array
`modes[] = {OFF, RISING_EDGE, FALLING_EDGE, EITHER_EDGE}` (value `0` is
`BSP_GPIO_IRQ_MODE_OFF`, matching the zero-initialized slots) and the
struct `hal_gpio_irq_t` from its uses (`pin`, `context`, `callback`).
The pigpio driver collaborator is modelled only where the slots observe
it: `isr_registered` records which pins currently have the
`gpio_irq_callback` trampoline registered through `gpioSetISRFunc`;
pin level / pull-up configuration is a pass-through with no effect on
the slot state and is elided. -/

/-- Edge trigger mode of a pin (`hal_gpio_irq_mode_t`). -/
inductive hal_gpio_irq_mode_t where
  | off
  | rising
  | falling
  | both
deriving DecidableEq

/-- Pull mode of a pin (`hal_gpio_pull_mode_t`), pass-through to the driver. -/
inductive hal_gpio_pull_mode_t where
  | off
  | up
  | down
deriving DecidableEq

/-- `hal_gpio_irq_t`: the user-owned irq descriptor (pin, context pointer,
callback pointer). -/
structure hal_gpio_irq_t where
  pin : Nat
  context : Option Nat
  callback : Option Nat
deriving DecidableEq

/-- One entry of the static `gpio[]` array (`struct hal_gpio_s`). -/
structure gpio_t where
  irq : Option hal_gpio_irq_t
  irq_mode : hal_gpio_irq_mode_t
  blocked : Bool
  pending : Bool
deriving DecidableEq

/-- Zero-initialized slot: NULL `irq` pointer, mode `0` (= OFF), not blocked,
not pending ("global and static arrays are automatically initialized to 0"). -/
instance : Inhabited gpio_t := ⟨⟨none, .off, false, false⟩⟩

/-- The GPIO facility: the static slot array (indexed by `pin - 0x2u`) plus
the driver-side record of which pins have an edge callback registered. -/
structure GpioState where
  slots : List gpio_t
  isr_registered : Nat → Bool

/-- The facility at program start: `P_NUM` zero-initialized slots, no driver
callback registered anywhere. -/
def gpioInit (P_NUM : Nat) : GpioState :=
  ⟨List.replicate P_NUM default, fun _ => false⟩

/-- `hal_gpio_irq_attach`: returns immediately when the descriptor or its
callback is NULL, or when the stored edge mode of the slot is OFF; otherwise
stores the descriptor on the slot and registers the trampoline with the
driver for that pin. -/
def hal_gpio_irq_attach (irq : Option hal_gpio_irq_t) (st : GpioState) : GpioState :=
  match irq with
  | none => st
  | some i =>
    if i.callback = none then st
    else if (st.slots.getD (i.pin - 2) default).irq_mode = hal_gpio_irq_mode_t.off then st
    else
      let sl := { st.slots.getD (i.pin - 2) default with irq := some i }
      { slots := st.slots.set (i.pin - 2) sl,
        isr_registered := fun p => if p = i.pin then true else st.isr_registered p }

/-- `hal_gpio_init_in`: writes the pin into the descriptor (when non-NULL),
configures direction/pull through the driver (elided), stores the edge mode
on the slot, then delegates to `hal_gpio_irq_attach`. -/
def hal_gpio_init_in (pin : Nat) (pull_mode : hal_gpio_pull_mode_t)
    (irq_mode : hal_gpio_irq_mode_t) (irq : Option hal_gpio_irq_t)
    (st : GpioState) : GpioState :=
  let irq2 := irq.map fun i => { i with pin := pin }
  let sl := { st.slots.getD (pin - 2) default with irq_mode := irq_mode }
  let st1 := { st with slots := st.slots.set (pin - 2) sl }
  hal_gpio_irq_attach irq2 st1

/-- Loop body of `hal_gpio_irq_enable` for one slot: clear `blocked`; if the
slot is pending with a non-NULL descriptor and callback, invoke it and clear
`pending`.  As in the timer facility, `pending` is cleared only in that
branch. -/
def gpio_enable_slot (g : gpio_t) : gpio_t × List Dispatch :=
  let g1 := { g with blocked := false }
  if g.pending then
    match g.irq with
    | some i =>
      match i.callback with
      | some cb => ({ g1 with pending := false }, [⟨cb, i.context⟩])
      | none => (g1, [])
    | none => (g1, [])
  else (g1, [])

/-- `hal_gpio_irq_enable`: applies the unmask/flush step to every slot,
collecting the dispatches in pin order. -/
def hal_gpio_irq_enable (st : GpioState) : GpioState × List Dispatch :=
  ({ st with slots := st.slots.map fun g => (gpio_enable_slot g).1 },
    (st.slots.map fun g => (gpio_enable_slot g).2).flatten)

/-- `hal_gpio_irq_disable`: sets `blocked` on every slot. -/
def hal_gpio_irq_disable (st : GpioState) : GpioState :=
  { st with slots := st.slots.map fun g => { g with blocked := true } }

/-- `hal_gpio_clear_pending_irq`: clears `pending` on every slot; the `pin`
argument is unused by the loop. -/
def hal_gpio_clear_pending_irq (pin : Nat) (st : GpioState) : GpioState :=
  { st with slots := st.slots.map fun g => { g with pending := false } }

/-- `gpio_irq_callback`: the driver-thread trampoline delivering an edge
event on `pin`.  Blocked slots record the event in `pending`; otherwise the
callback of the stored descriptor is invoked if attached. -/
def gpio_irq_callback (pin : Nat) (st : GpioState) : GpioState × List Dispatch :=
  let index := pin - 2
  let g := st.slots.getD index default
  if g.blocked then
    ({ st with slots := st.slots.set index { g with pending := true } }, [])
  else
    match g.irq with
    | some i =>
      match i.callback with
      | some cb => (st, [⟨cb, i.context⟩])
      | none => (st, [])
    | none => (st, [])

/-- A slot has a handler when its descriptor is non-NULL with a non-NULL
callback. -/
def gpio_t.hasHandler (g : gpio_t) : Bool :=
  match g.irq with
  | some i => i.callback.isSome
  | none => false

/-! ### Helper lemmas on slot arrays -/

theorem lp_getD_replicate {α : Type} (n i : Nat) (a : α) :
    (List.replicate n a).getD i a = a := by
  induction n generalizing i with
  | zero => rfl
  | succ n ih =>
    cases i with
    | zero => rfl
    | succ i => simpa [List.replicate_succ, List.getD] using ih i

theorem lp_getD_set_self {α : Type} (l : List α) (i : Nat) (v d : α)
    (h : i < l.length) : (l.set i v).getD i d = v := by
  induction l generalizing i with
  | nil => simp at h
  | cons a l ih =>
    cases i with
    | zero => rfl
    | succ i => simpa [List.getD] using ih i (by simpa using h)

theorem lp_getD_map {α : Type} (f : α → α) (d : α) (hf : f d = d)
    (l : List α) (i : Nat) : (l.map f).getD i d = f (l.getD i d) := by
  induction l generalizing i with
  | nil => simpa [List.getD] using hf.symm
  | cons a l ih =>
    cases i with
    | zero => rfl
    | succ i => simpa [List.getD] using ih i

theorem lp_timer_blocked_update_self (s : lp_timer_t) (h : s.blocked = false) :
    { s with blocked := false } = s := by
  cases s
  simp_all

theorem gpio_blocked_update_self (g : gpio_t) (h : g.blocked = false) :
    { g with blocked := false } = g := by
  cases g
  simp_all

theorem gpio_enable_slot_no_handler (g : gpio_t) (hg : g.hasHandler = false) :
    gpio_enable_slot g = ({ g with blocked := false }, []) := by
  unfold gpio_t.hasHandler at hg
  cases hgi : g.irq with
  | none => simp [gpio_enable_slot, hgi]
  | some i =>
    rw [hgi] at hg
    cases hc : i.callback with
    | some cb => simp [hc] at hg
    | none => simp [gpio_enable_slot, hgi, hc]

theorem gpio_enable_fst_getD (st : GpioState) (i : Nat) :
    (hal_gpio_irq_enable st).1.slots.getD i default
      = (gpio_enable_slot (st.slots.getD i default)).1 :=
  lp_getD_map (fun g => (gpio_enable_slot g).1) default rfl st.slots i

/-! ### Claims about the initial state and the unmask path -/

/-- C4 counterexample: the zero-initialized timer slot starts with
`blocked = false`; the claimed default `masked = true` is false already in
the initial state. -/
theorem initial_slot_masked_cex : ¬ (timerInit.blocked = true) := by decide

/-- C4 (amended): in the initial, zero-initialized state of every event
slot — timer and pin alike — `masked` is false (the slot starts unmasked,
not masked) and `pending` is false, with no handler attached. -/
theorem initial_slot_state (P_NUM i : Nat) :
    timerInit.blocked = false ∧ timerInit.pending = false ∧
    timerInit.tmr_irq = no_irq ∧
    ((gpioInit P_NUM).slots.getD i default).blocked = false ∧
    ((gpioInit P_NUM).slots.getD i default).pending = false ∧
    ((gpioInit P_NUM).slots.getD i default).irq = none := by
  have h : (gpioInit P_NUM).slots.getD i default = default :=
    lp_getD_replicate P_NUM i default
  exact ⟨rfl, rfl, rfl, by rw [h]; rfl, by rw [h]; rfl, by rw [h]; rfl⟩

/-- C3 counterexample: mask the (handlerless) initial timer slot, deliver
one expiry, then unmask: the unmask dispatches nothing but leaves
`pending = true` — it does not clear it as the claim states. -/
theorem unmask_no_handler_cex :
    (runTimer timerInit [.irq_disable, .expire]).1.tmr_irq.callback = none ∧
    (hal_lp_timer_irq_enable
        (runTimer timerInit [.irq_disable, .expire]).1).1.pending = true ∧
    (hal_lp_timer_irq_enable
        (runTimer timerInit [.irq_disable, .expire]).1).2 = [] := by decide

/-- C3 (amended): unmasking a slot whose handler is none never dispatches,
and leaves `pending` unchanged rather than clearing it; only `blocked` is
reset to false.  This holds for a timer slot, for the per-slot loop body of
`hal_gpio_irq_enable`, and for each slot across the whole-facility
`hal_gpio_irq_enable` call. -/
theorem unmask_no_handler (s : lp_timer_t) (g : gpio_t) (st : GpioState) (i : Nat)
    (hs : s.tmr_irq.callback = none) (hg : g.hasHandler = false)
    (hi : (st.slots.getD i default).hasHandler = false) :
    hal_lp_timer_irq_enable s = ({ s with blocked := false }, []) ∧
    gpio_enable_slot g = ({ g with blocked := false }, []) ∧
    (hal_gpio_irq_enable st).1.slots.getD i default
      = { st.slots.getD i default with blocked := false } := by
  refine ⟨?_, gpio_enable_slot_no_handler g hg, ?_⟩
  · simp [hal_lp_timer_irq_enable, hs]
  · rw [gpio_enable_fst_getD, gpio_enable_slot_no_handler _ hi]

/-- C3 witness: a concrete masked, pending, handlerless timer slot and pin
slot: unmask resets only `blocked`, keeping `pending` set. -/
theorem unmask_no_handler_witness :
    hal_lp_timer_irq_enable ⟨no_irq, true, true, 0⟩ = (⟨no_irq, false, true, 0⟩, []) ∧
    gpio_enable_slot ⟨none, .off, true, true⟩ = (⟨none, .off, false, true⟩, []) := by
  have h := unmask_no_handler ⟨no_irq, true, true, 0⟩ ⟨none, .off, true, true⟩
    ⟨[], fun _ => false⟩ 0 rfl rfl rfl
  exact ⟨h.1, h.2.1⟩

/-- C5 counterexample: a reachable already-unmasked slot on which a second
unmask is not a no-op.  Mask, deliver an expiry (slot has no handler), and
unmask: `pending` stays set; attach a handler with `hal_lp_timer_start`;
the slot is now unmasked, yet another unmask dispatches the handler. -/
theorem unmask_unmasked_noop_cex :
    (runTimer timerInit
        [.irq_disable, .expire, .irq_enable, .start 5 ⟨some 0, some 7⟩]).1.blocked
      = false ∧
    (hal_lp_timer_irq_enable (runTimer timerInit
        [.irq_disable, .expire, .irq_enable, .start 5 ⟨some 0, some 7⟩]).1).2
      = [⟨7, some 0⟩] := by decide

/-- C5 (amended): unmask performs at most one handler dispatch per call (per
slot, in both facilities).  Unmask on an already-unmasked slot is a no-op
when the slot has no pending event or no attached handler; but when
`pending` is set and a handler is attached (a state reachable after an
unmask that found no handler), unmask dispatches that handler once and
clears `pending` even though the slot was already unmasked. -/
theorem unmask_at_most_one_dispatch (s : lp_timer_t) (g : gpio_t) :
    (hal_lp_timer_irq_enable s).2.length ≤ 1 ∧
    (gpio_enable_slot g).2.length ≤ 1 ∧
    (s.blocked = false → s.pending = false ∨ s.tmr_irq.callback = none →
      hal_lp_timer_irq_enable s = (s, [])) ∧
    (g.blocked = false → g.pending = false ∨ g.hasHandler = false →
      gpio_enable_slot g = (g, [])) ∧
    (s.pending = true → ∀ cb, s.tmr_irq.callback = some cb →
      hal_lp_timer_irq_enable s
        = ({ s with blocked := false, pending := false }, [⟨cb, s.tmr_irq.context⟩])) := by
  obtain ⟨irq, bl, pe, os⟩ := s
  obtain ⟨gi, gm, gb, gp⟩ := g
  refine ⟨?_, ?_, ?_, ?_, ?_⟩
  · cases pe with
    | false => simp [hal_lp_timer_irq_enable]
    | true => cases hcb : irq.callback <;> simp [hal_lp_timer_irq_enable, hcb]
  · cases gp with
    | false => simp [gpio_enable_slot]
    | true =>
      cases gi with
      | none => simp [gpio_enable_slot]
      | some i => cases hc : i.callback <;> simp [gpio_enable_slot, hc]
  · intro hb hcase
    cases bl with
    | true => simp at hb
    | false =>
      rcases hcase with hp | hcb
      · cases pe with
        | true => simp at hp
        | false => simp [hal_lp_timer_irq_enable]
      · cases pe <;> simp_all [hal_lp_timer_irq_enable]
  · intro hb hcase
    cases gb with
    | true => simp at hb
    | false =>
      rcases hcase with hp | hh
      · cases gp with
        | true => simp at hp
        | false => simp [gpio_enable_slot]
      · have := gpio_enable_slot_no_handler ⟨gi, gm, false, gp⟩ hh
        simpa using this
  · intro hp cb hcb
    cases pe with
    | true => simp_all [hal_lp_timer_irq_enable]
    | false => simp at hp

/-- C5 witness: a concrete unmasked slot with nothing pending is untouched
by unmask, and a concrete unmask dispatches at most one handler. -/
theorem unmask_at_most_one_dispatch_witness :
    (hal_lp_timer_irq_enable ⟨⟨some 0, some 7⟩, false, false, 3⟩).2.length ≤ 1 ∧
    hal_lp_timer_irq_enable ⟨⟨some 0, some 7⟩, false, false, 3⟩
      = (⟨⟨some 0, some 7⟩, false, false, 3⟩, []) ∧
    gpio_enable_slot ⟨none, .off, false, false⟩ = (⟨none, .off, false, false⟩, []) ∧
    hal_lp_timer_irq_enable ⟨⟨some 0, some 7⟩, false, true, 3⟩
      = (⟨⟨some 0, some 7⟩, false, false, 3⟩, [⟨7, some 0⟩]) := by
  refine ⟨(unmask_at_most_one_dispatch ⟨⟨some 0, some 7⟩, false, false, 3⟩ default).1,
    (unmask_at_most_one_dispatch ⟨⟨some 0, some 7⟩, false, false, 3⟩ default).2.2.1
      rfl (Or.inl rfl),
    (unmask_at_most_one_dispatch timerInit ⟨none, .off, false, false⟩).2.2.2.1
      rfl (Or.inl rfl),
    (unmask_at_most_one_dispatch ⟨⟨some 0, some 7⟩, false, true, 3⟩ default).2.2.2.2
      rfl 7 rfl⟩

/-- C6: notify behaviour of the delivery handlers.  A masked slot records
the event in `pending` and dispatches nothing; an unmasked slot is left
unchanged (in particular `pending` is untouched) and the attached handler,
if any, is dispatched immediately.  Stated for the timer signal handler
`pl_timer_handler` and the GPIO driver trampoline `gpio_irq_callback`. -/
theorem notify_gate_dispatch (s : lp_timer_t) (st : GpioState) (pin : Nat)
    (h2 : 2 ≤ pin) (hlt : pin - 2 < st.slots.length) :
    (s.blocked = true → pl_timer_handler s = ({ s with pending := true }, [])) ∧
    (s.blocked = false → (pl_timer_handler s).1 = s ∧
      (∀ cb, s.tmr_irq.callback = some cb →
        (pl_timer_handler s).2 = [⟨cb, s.tmr_irq.context⟩]) ∧
      (s.tmr_irq.callback = none → (pl_timer_handler s).2 = [])) ∧
    ((st.slots.getD (pin - 2) default).blocked = true →
      (gpio_irq_callback pin st).2 = [] ∧
      ((gpio_irq_callback pin st).1.slots.getD (pin - 2) default).pending = true ∧
      ((gpio_irq_callback pin st).1.slots.getD (pin - 2) default).irq
        = (st.slots.getD (pin - 2) default).irq) ∧
    ((st.slots.getD (pin - 2) default).blocked = false →
      (gpio_irq_callback pin st).1 = st ∧
      (∀ i cb, (st.slots.getD (pin - 2) default).irq = some i →
        i.callback = some cb →
        (gpio_irq_callback pin st).2 = [⟨cb, i.context⟩])) := by
  refine ⟨?_, ?_, ?_, ?_⟩
  · intro hb
    simp [pl_timer_handler, hb]
  · intro hb
    refine ⟨?_, ?_, ?_⟩
    · cases hcb : s.tmr_irq.callback <;> simp [pl_timer_handler, hb, hcb]
    · intro cb hcb
      simp [pl_timer_handler, hb, hcb]
    · intro hcb
      simp [pl_timer_handler, hb, hcb]
  · intro hb
    simp only [gpio_irq_callback]
    rw [if_pos hb]
    refine ⟨rfl, ?_, ?_⟩
    · rw [lp_getD_set_self _ _ _ _ hlt]
    · rw [lp_getD_set_self _ _ _ _ hlt]
  · intro hb
    simp only [gpio_irq_callback]
    rw [if_neg (by rw [hb]; exact Bool.false_ne_true)]
    constructor
    · rcases hgi : (st.slots.getD (pin - 2) default).irq with _ | i
      · rfl
      · show (match i.callback with
            | some cb => (st, [(⟨cb, i.context⟩ : Dispatch)])
            | none => (st, [])).1 = st
        rcases i.callback with _ | cb <;> rfl
    · intro i cb hgi hc
      rw [hgi]
      show (match i.callback with
          | some cb2 => (st, [(⟨cb2, i.context⟩ : Dispatch)])
          | none => (st, [])).2 = [(⟨cb, i.context⟩ : Dispatch)]
      rw [hc]

/-- C6 witness: a masked concrete timer slot latches `pending`; an unmasked
concrete pin slot with a handler dispatches it and keeps the state. -/
theorem notify_gate_dispatch_witness :
    pl_timer_handler ⟨⟨some 0, some 7⟩, true, false, 0⟩
      = (⟨⟨some 0, some 7⟩, true, true, 0⟩, []) ∧
    (gpio_irq_callback 2
        ⟨[⟨some ⟨2, some 4, some 9⟩, .rising, false, false⟩], fun _ => true⟩).1
      = ⟨[⟨some ⟨2, some 4, some 9⟩, .rising, false, false⟩], fun _ => true⟩ ∧
    (gpio_irq_callback 2
        ⟨[⟨some ⟨2, some 4, some 9⟩, .rising, false, false⟩], fun _ => true⟩).2
      = [⟨9, some 4⟩] := by
  have h1 := (notify_gate_dispatch ⟨⟨some 0, some 7⟩, true, false, 0⟩
    ⟨[⟨some ⟨2, some 4, some 9⟩, .rising, false, false⟩], fun _ => true⟩ 2
    (by decide) (by decide)).1 rfl
  have h2 := (notify_gate_dispatch ⟨⟨some 0, some 7⟩, true, false, 0⟩
    ⟨[⟨some ⟨2, some 4, some 9⟩, .rising, false, false⟩], fun _ => true⟩ 2
    (by decide) (by decide)).2.2.2 rfl
  exact ⟨h1, h2.1, h2.2 ⟨2, some 4, some 9⟩ 9 rfl rfl⟩

/-- C7: after `hal_lp_timer_stop` the handler of the slot is the NULL pair and
the countdown is disarmed; an expiry delivered after `stop` dispatches
nothing, and after `stop` immediately followed by `hal_lp_timer_start` with
a new handler, any dispatch invokes the callback of the new handler, never the
old one. -/
theorem stop_clears_handler (s : lp_timer_t) (ms : Nat)
    (irq2 : hal_lp_timer_irq_t) :
    (hal_lp_timer_stop s).tmr_irq = no_irq ∧
    (hal_lp_timer_stop s).os_value_ms = 0 ∧
    (pl_timer_handler (hal_lp_timer_stop s)).2 = [] ∧
    ((pl_timer_handler
          (hal_lp_timer_start ms irq2 (hal_lp_timer_stop s))).2.all
      fun d => irq2.callback == some d.callback) = true := by
  refine ⟨rfl, rfl, ?_, ?_⟩
  · cases hb : s.blocked <;>
      simp [pl_timer_handler, hal_lp_timer_stop, no_irq, hb]
  · cases hb : s.blocked with
    | true => simp [pl_timer_handler, hal_lp_timer_start, hal_lp_timer_stop, hb]
    | false =>
      cases hc : irq2.callback <;>
        simp [pl_timer_handler, hal_lp_timer_start, hal_lp_timer_stop, hb, hc]

theorem hal_gpio_irq_attach_off (i2 : hal_gpio_irq_t) (st : GpioState)
    (hmode : (st.slots.getD (i2.pin - 2) default).irq_mode
      = hal_gpio_irq_mode_t.off) :
    hal_gpio_irq_attach (some i2) st = st := by
  simp only [hal_gpio_irq_attach]
  cases hc : i2.callback with
  | none => rw [if_pos rfl]
  | some cb => rw [if_neg (by simp), if_pos hmode]

/-- C8 counterexample: configuring pin 2 as input with `edge_mode = off` and
a non-NULL handler does NOT store the handler on the slot — `irq` stays
NULL, because `hal_gpio_irq_attach` returns before the assignment when the
mode is OFF. -/
theorem edge_off_handler_not_stored_cex :
    ((hal_gpio_init_in 2 hal_gpio_pull_mode_t.off hal_gpio_irq_mode_t.off
        (some ⟨0, some 0, some 5⟩) (gpioInit 1)).slots.getD 0 default).irq
      = none := by decide

/-- C8 (amended): configuring an input pin with `edge_mode = off` and a
non-null handler stores the edge mode on the slot but does NOT store the
handler (the slot field `irq` stays NULL), and registers no driver-level edge
callback; a subsequently simulated driver-level edge event on that pin
invokes no handler, changes nothing, and leaves `pending` false. -/
theorem edge_off_no_register_no_dispatch (n pin : Nat)
    (pull_mode : hal_gpio_pull_mode_t) (i : hal_gpio_irq_t) (cb : Nat)
    (hcb : i.callback = some cb) (h2 : 2 ≤ pin) (hlt : pin - 2 < n) :
    ((hal_gpio_init_in pin pull_mode .off (some i) (gpioInit n)).slots.getD
        (pin - 2) default).irq_mode = hal_gpio_irq_mode_t.off ∧
    ((hal_gpio_init_in pin pull_mode .off (some i) (gpioInit n)).slots.getD
        (pin - 2) default).irq = none ∧
    (hal_gpio_init_in pin pull_mode .off (some i) (gpioInit n)).isr_registered
        pin = false ∧
    gpio_irq_callback pin (hal_gpio_init_in pin pull_mode .off (some i) (gpioInit n))
      = (hal_gpio_init_in pin pull_mode .off (some i) (gpioInit n), []) ∧
    ((gpio_irq_callback pin
        (hal_gpio_init_in pin pull_mode .off (some i)
          (gpioInit n))).1.slots.getD (pin - 2) default).pending = false := by
  have hlen : pin - 2 < (List.replicate n (default : gpio_t)).length := by
    simpa using hlt
  have hrep : (List.replicate n (default : gpio_t)).getD (pin - 2) default
      = default := lp_getD_replicate n (pin - 2) default
  have hsl : ({ (List.replicate n (default : gpio_t)).getD (pin - 2) default with
        irq_mode := hal_gpio_irq_mode_t.off } : gpio_t)
      = ⟨none, hal_gpio_irq_mode_t.off, false, false⟩ := by
    rw [hrep]
    rfl
  have hst : hal_gpio_init_in pin pull_mode .off (some i) (gpioInit n)
      = ⟨(List.replicate n (default : gpio_t)).set (pin - 2)
          ({ (List.replicate n (default : gpio_t)).getD (pin - 2) default with
            irq_mode := hal_gpio_irq_mode_t.off }), fun _ => false⟩ := by
    show hal_gpio_irq_attach (some { i with pin := pin })
        (⟨(List.replicate n (default : gpio_t)).set (pin - 2)
          ({ (List.replicate n (default : gpio_t)).getD (pin - 2) default with
            irq_mode := hal_gpio_irq_mode_t.off }), fun _ => false⟩ : GpioState) = _
    exact hal_gpio_irq_attach_off _ _ (by
      show (((List.replicate n (default : gpio_t)).set (pin - 2)
          ({ (List.replicate n (default : gpio_t)).getD (pin - 2) default with
            irq_mode := hal_gpio_irq_mode_t.off })).getD (pin - 2)
            default).irq_mode = hal_gpio_irq_mode_t.off
      rw [lp_getD_set_self _ _ _ _ hlen])
  rw [hsl] at hst
  have hgetD : (((List.replicate n (default : gpio_t)).set (pin - 2)
      (⟨none, hal_gpio_irq_mode_t.off, false, false⟩ : gpio_t)).getD (pin - 2) default)
      = ⟨none, hal_gpio_irq_mode_t.off, false, false⟩ :=
    lp_getD_set_self _ _ _ _ hlen
  have hcall : gpio_irq_callback pin
      (⟨(List.replicate n (default : gpio_t)).set (pin - 2)
        ⟨none, hal_gpio_irq_mode_t.off, false, false⟩, fun _ => false⟩ : GpioState)
      = (⟨(List.replicate n (default : gpio_t)).set (pin - 2)
          ⟨none, hal_gpio_irq_mode_t.off, false, false⟩, fun _ => false⟩, []) := by
    simp only [gpio_irq_callback]
    rw [hgetD]
    rfl
  rw [hst]
  refine ⟨by rw [hgetD], by rw [hgetD], rfl, hcall, ?_⟩
  rw [hcall]
  show (((List.replicate n (default : gpio_t)).set (pin - 2)
      (⟨none, hal_gpio_irq_mode_t.off, false, false⟩ : gpio_t)).getD
        (pin - 2) default).pending = false
  rw [hgetD]

/-- C8 witness: for pin 2 on a one-slot facility, with a concrete handler
and edge mode off, no driver callback is registered and a simulated edge
event is a silent no-op. -/
theorem edge_off_no_register_no_dispatch_witness :
    (hal_gpio_init_in 2 hal_gpio_pull_mode_t.off hal_gpio_irq_mode_t.off
        (some ⟨0, some 0, some 5⟩) (gpioInit 1)).isr_registered 2 = false ∧
    gpio_irq_callback 2 (hal_gpio_init_in 2 hal_gpio_pull_mode_t.off
        hal_gpio_irq_mode_t.off (some ⟨0, some 0, some 5⟩) (gpioInit 1))
      = (hal_gpio_init_in 2 hal_gpio_pull_mode_t.off hal_gpio_irq_mode_t.off
          (some ⟨0, some 0, some 5⟩) (gpioInit 1), []) := by
  have h := edge_off_no_register_no_dispatch 1 2 hal_gpio_pull_mode_t.off
    ⟨0, some 0, some 5⟩ 5 rfl (by decide) (by decide)
  exact ⟨h.2.2.1, h.2.2.2.1⟩

/-- C9: `hal_gpio_clear_pending_irq` ignores its `pin` argument and clears
the `pending` flag of every slot in the facility, leaving every other field
of every slot (and the driver registration state) untouched. -/
theorem clear_pending_clears_all_pins (pin qin : Nat) (st : GpioState) (i : Nat) :
    hal_gpio_clear_pending_irq pin st = hal_gpio_clear_pending_irq qin st ∧
    ((hal_gpio_clear_pending_irq pin st).slots.getD i default).pending = false ∧
    ((hal_gpio_clear_pending_irq pin st).slots.getD i default).irq
      = (st.slots.getD i default).irq ∧
    ((hal_gpio_clear_pending_irq pin st).slots.getD i default).irq_mode
      = (st.slots.getD i default).irq_mode ∧
    ((hal_gpio_clear_pending_irq pin st).slots.getD i default).blocked
      = (st.slots.getD i default).blocked ∧
    (hal_gpio_clear_pending_irq pin st).slots.length = st.slots.length ∧
    (hal_gpio_clear_pending_irq pin st).isr_registered = st.isr_registered := by
  have hmap : (hal_gpio_clear_pending_irq pin st).slots.getD i default
      = { st.slots.getD i default with pending := false } := by
    simp only [hal_gpio_clear_pending_irq]
    exact lp_getD_map (fun g => { g with pending := false }) default rfl st.slots i
  exact ⟨rfl, by rw [hmap], by rw [hmap], by rw [hmap], by rw [hmap],
    by simp [hal_gpio_clear_pending_irq], rfl⟩

/-! ### Process supervisor (`main.c`) -/

/-- Outcome of `waitpid` on the worker: normal exit with a code
(`WIFEXITED` true, `WEXITSTATUS` the code) or death by an uncaught signal
(`WIFEXITED` false). -/
inductive WaitStatus where
  | exited (code : Nat)
  | signaled (sig : Nat)
deriving DecidableEq

/-- The fork loop of `main`: fork a worker, wait for its termination, and
loop while the worker exited normally with code 3.  Given the sequence of
worker terminations, returns the total number of `fork` calls performed
before the supervisor returns, or `none` if the trace ends with a worker
still running. -/
def supervise : List WaitStatus → Option Nat
  | [] => none
  | t :: ts =>
    if t = WaitStatus.exited 3 then (supervise ts).map (· + 1) else some 1

/-- The number of leading "restart me" terminations (normal exits with
code 3) in a termination trace — per the spec, each of these and nothing
else triggers a re-fork. -/
def leadingRestarts : List WaitStatus → Nat
  | [] => 0
  | t :: ts => if t = WaitStatus.exited 3 then leadingRestarts ts + 1 else 0

/-- C2: the supervisor re-forks exactly after a normal exit with code 3 and
stops on anything else: whenever the trace contains a termination that is
not `exited 3`, the supervisor performs exactly `leadingRestarts + 1`
forks (one initial fork plus one per leading code-3 exit) and terminates;
if every termination in the (finite) trace is a code-3 exit, a worker is
still running.  In particular three code-3 exits followed by a code-0 exit
yield exactly four forks regardless of any later terminations. -/
theorem supervisor_restart_iff_exit3 (ts rest : List WaitStatus) :
    (leadingRestarts ts < ts.length →
      supervise ts = some (leadingRestarts ts + 1)) ∧
    (ts.length ≤ leadingRestarts ts → supervise ts = none) ∧
    (∀ t, t ≠ WaitStatus.exited 3 → supervise (t :: rest) = some 1) ∧
    supervise ([.exited 3, .exited 3, .exited 3, .exited 0] ++ rest)
      = some 4 := by
  refine ⟨?_, ?_, ?_, ?_⟩
  · induction ts with
    | nil => intro h; simp at h
    | cons t ts ih =>
      intro h
      by_cases ht : t = WaitStatus.exited 3
      · subst ht
        simp only [leadingRestarts, if_pos rfl] at h ⊢
        simp only [supervise, if_pos rfl]
        rw [ih (by simpa using h)]
        rfl
      · simp [supervise, leadingRestarts, ht]
  · induction ts with
    | nil => intro _; rfl
    | cons t ts ih =>
      intro h
      by_cases ht : t = WaitStatus.exited 3
      · subst ht
        simp only [leadingRestarts, if_pos rfl] at h
        simp only [supervise, if_pos rfl]
        rw [ih (by simpa using h)]
        rfl
      · exfalso
        simp only [leadingRestarts, if_neg ht, List.length_cons] at h
        omega
  · intro t ht
    simp [supervise, ht]
  · show supervise (.exited 3 :: .exited 3 :: .exited 3 :: .exited 0 :: rest) = some 4
    simp [supervise]

/-- C2 witness: concrete traces — three restart exits then a clean exit
give four forks; a signal death gives one fork; an all-restart trace leaves
a worker running. -/
theorem supervisor_restart_iff_exit3_witness :
    supervise [.exited 3, .exited 3, .exited 3, .exited 0] = some 4 ∧
    supervise [.signaled 9] = some 1 ∧
    supervise [.exited 3] = none := by
  refine ⟨?_, ?_, ?_⟩
  · exact (supervisor_restart_iff_exit3
      [.exited 3, .exited 3, .exited 3, .exited 0] []).1 (by decide)
  · exact (supervisor_restart_iff_exit3 [] []).2.2.1 (.signaled 9) (by decide)
  · exact (supervisor_restart_iff_exit3 [.exited 3] []).2.1 (by decide)

/-! ### Command-line parsing (`main.c`) -/

/-- The configurable globals of `main.c` with their initial values
(`g_uplink_period_s = 60`, `g_packet_size = 12`,
`g_packet_size_fixed = true`).  The two integers are a C `uint32_t` and
`uint8_t`. -/
structure MainGlobals where
  g_uplink_period_s : Nat
  g_packet_size : Nat
  g_packet_size_fixed : Bool
deriving DecidableEq

def main_globals_init : MainGlobals := ⟨60, 12, true⟩

/-- The argument-parsing prologue of `main`.  `a1`/`a2` are the `atoi`
results of `argv[1]`/`argv[2]` when present (an `atoi` result is a C
`int`); `a3` is `argv[3]` when present.  `p` is clamped below at 1 and
stored into the `uint32_t` period; `s` is clamped into `[1, 222]` and
stored into the `uint8_t` packet size; `argv[3]` selects variable packet
size when it is `var`, `variable` or `1`. -/
def main_parse_args (a1 a2 : Option Int) (a3 : Option String) : MainGlobals :=
  let c0 := main_globals_init
  let c1 := match a1 with
    | some p0 =>
      let p := if p0 < 1 then 1 else p0
      { c0 with g_uplink_period_s := (p % (2 : Int) ^ 32).toNat }
    | none => c0
  let c2 := match a2 with
    | some s0 =>
      let s := if s0 < 1 then 1 else s0
      let s2 := if s > 222 then 222 else s
      { c1 with g_packet_size := (s2 % (2 : Int) ^ 8).toNat }
    | none => c1
  match a3 with
  | some a =>
    if a == "var" || a == "variable" || a == "1" then
      { c2 with g_packet_size_fixed := false }
    else
      { c2 with g_packet_size_fixed := true }
  | none => c2

/-- C10: after argument parsing, the uplink period is at least 1 and the
packet size is in `[1, 222]`: sub-minimum values are clamped up, packet
sizes above 222 are clamped down, in-range values pass through, and absent
arguments keep the defaults 60 s and 12 bytes.  (`a1` is an `atoi` result,
hence within the C `int` range, which excludes `uint32_t` wrap-around.) -/
theorem parse_args_clamps (a1 a2 : Option Int) (a3 : Option String)
    (h1 : ∀ p, a1 = some p → p < 2 ^ 31) :
    1 ≤ (main_parse_args a1 a2 a3).g_uplink_period_s ∧
    1 ≤ (main_parse_args a1 a2 a3).g_packet_size ∧
    (main_parse_args a1 a2 a3).g_packet_size ≤ 222 ∧
    (a1 = none → (main_parse_args a1 a2 a3).g_uplink_period_s = 60) ∧
    (a2 = none → (main_parse_args a1 a2 a3).g_packet_size = 12) ∧
    (∀ p, a1 = some p → p < 1 →
      (main_parse_args a1 a2 a3).g_uplink_period_s = 1) ∧
    (∀ p, a1 = some p → 1 ≤ p →
      (main_parse_args a1 a2 a3).g_uplink_period_s = p.toNat) ∧
    (∀ t, a2 = some t → t < 1 →
      (main_parse_args a1 a2 a3).g_packet_size = 1) ∧
    (∀ t, a2 = some t → 222 < t →
      (main_parse_args a1 a2 a3).g_packet_size = 222) ∧
    (∀ t, a2 = some t → 1 ≤ t → t ≤ 222 →
      (main_parse_args a1 a2 a3).g_packet_size = t.toNat) := by
  have hA : (main_parse_args a1 a2 a3).g_uplink_period_s
      = match a1 with
        | none => 60
        | some p0 => ((if p0 < 1 then 1 else p0) % (2 : Int) ^ 32).toNat := by
    rcases a1 with _ | p0 <;> rcases a2 with _ | s0 <;> rcases a3 with _ | a <;>
      simp only [main_parse_args, main_globals_init,
        apply_ite MainGlobals.g_uplink_period_s, ite_self]
  have hB : (main_parse_args a1 a2 a3).g_packet_size
      = match a2 with
        | none => 12
        | some s0 =>
          ((if (if s0 < 1 then 1 else s0) > 222 then 222
            else if s0 < 1 then 1 else s0) % (2 : Int) ^ 8).toNat := by
    rcases a1 with _ | p0 <;> rcases a2 with _ | s0 <;> rcases a3 with _ | a <;>
      simp only [main_parse_args, main_globals_init,
        apply_ite MainGlobals.g_packet_size, ite_self]
  rcases a1 with _ | p0 <;> rcases a2 with _ | s0 <;> simp only at hA hB
  · rw [hA, hB]
    exact ⟨by omega, by omega, by omega, fun _ => rfl, fun _ => rfl,
      fun p hp => Option.noConfusion hp, fun p hp => Option.noConfusion hp,
      fun t ht => Option.noConfusion ht, fun t ht => Option.noConfusion ht,
      fun t ht => Option.noConfusion ht⟩
  · rw [hA, hB]
    refine ⟨by omega, by split_ifs <;> omega, by split_ifs <;> omega,
      fun _ => rfl, fun h => Option.noConfusion h,
      fun p hp => Option.noConfusion hp, fun p hp => Option.noConfusion hp,
      ?_, ?_, ?_⟩
    · intro t ht hlt
      injection ht with he
      subst he
      split_ifs <;> omega
    · intro t ht hgt
      injection ht with he
      subst he
      split_ifs <;> omega
    · intro t ht hge hle
      injection ht with he
      subst he
      split_ifs <;> omega
  · rw [hA, hB]
    have hp31 := h1 p0 rfl
    refine ⟨by split_ifs <;> omega, by omega, by omega,
      fun h => Option.noConfusion h, fun _ => rfl, ?_, ?_,
      fun t ht => Option.noConfusion ht, fun t ht => Option.noConfusion ht,
      fun t ht => Option.noConfusion ht⟩
    · intro p hp hlt
      injection hp with he
      subst he
      split_ifs <;> omega
    · intro p hp hge
      injection hp with he
      subst he
      split_ifs <;> omega
  · rw [hA, hB]
    have hp31 := h1 p0 rfl
    refine ⟨by split_ifs <;> omega, by split_ifs <;> omega,
      by split_ifs <;> omega,
      fun h => Option.noConfusion h, fun h => Option.noConfusion h,
      ?_, ?_, ?_, ?_, ?_⟩
    · intro p hp hlt
      injection hp with he
      subst he
      split_ifs <;> omega
    · intro p hp hge
      injection hp with he
      subst he
      split_ifs <;> omega
    · intro t ht hlt
      injection ht with he
      subst he
      split_ifs <;> omega
    · intro t ht hgt
      injection ht with he
      subst he
      split_ifs <;> omega
    · intro t ht hge hle
      injection ht with he
      subst he
      split_ifs <;> omega

/-- C10 witness: concrete command lines — no arguments keep the defaults;
a period of 0 is clamped to 1 and a packet size of 300 to 222. -/
theorem parse_args_clamps_witness :
    (main_parse_args none none none).g_uplink_period_s = 60 ∧
    (main_parse_args none none none).g_packet_size = 12 ∧
    (main_parse_args (some 0) (some 300) none).g_uplink_period_s = 1 ∧
    (main_parse_args (some 0) (some 300) none).g_packet_size = 222 := by
  have ha : ∀ p, (none : Option Int) = some p → p < 2 ^ 31 :=
    fun p hp => Option.noConfusion hp
  have hb : ∀ p, (some (0 : Int)) = some p → p < 2 ^ 31 := by
    intro p hp
    injection hp with he
    subst he
    decide
  refine ⟨(parse_args_clamps none none none ha).2.2.2.1 rfl,
    (parse_args_clamps none none none ha).2.2.2.2.1 rfl,
    (parse_args_clamps (some 0) (some 300) none hb).2.2.2.2.2.1 0 rfl
      (by decide),
    (parse_args_clamps (some 0) (some 300) none hb).2.2.2.2.2.2.2.2.1 300 rfl
      (by decide)⟩
